import Mathlib

/-!
Shallow embedding of the per-transaction storage access tracker
(`StorageChangeInspector` in crates/block-access-list/src/inspector/storage.rs).

Machine words (addresses, 256-bit slot keys, 256-bit storage values) are
modelled as `Nat`; the tracker only compares them for equality and against
zero, so no arithmetic overflow is involved.  The conversion
`StorageKey::from(slot.to_be_bytes())` and the comparison
`*slot_key == key.into()` are exact 32-byte round trips in the source and
are identities here.

Hash maps of the source are modelled as their lookup functions
(`Addr -> Slot -> Option _` for maps, `Addr -> Slot -> Bool` for sets of
slots per address); the classifier methods, which iterate over the maps,
are embedded pointwise, by the membership of each (address, slot) in the
view they return.  The source's classifier methods treat the write map's
values as the stored post-value (the simpler `address -> slot -> post`
revision of the map), while the struct declaration and the `step` hook
store `(pre, post)` pairs; the embedding stores pairs and the classifiers
read the post component, which is the only coherent reading of the file.

The `pre_state` field is referenced by `set_pre_state`,
`unchanged_writes`, `untouched_pre_state_slots` and
`get_bal_storage_writes` in the source even though its declaration line is
absent from the struct; it is included here as a field.

`step` can panic in the source: the SLOAD branch indexes
`journal.evm_state()[addr].storage[slot_key]`, which aborts when the state
map lacks the account or the slot.  The embedding returns
`Option StorageChangeInspector`, with `none` for the panic.
-/

/-- Account address. -/
abbrev Addr := Nat

/-- 256-bit storage slot key. -/
abbrev Slot := Nat

/-- 256-bit storage value; zero is the canonical absent value. -/
abbrev Val := Nat

/-- The two opcodes the observer filters for. SLOAD is byte 0x54. -/
def SLOAD : Nat := 0x54

/-- SSTORE is byte 0x55. -/
def SSTORE : Nat := 0x55

/-- An entry of the execution engine's reversible change journal.
`StorageChanged` carries the address, the slot key, and the value the slot
held immediately before that particular mutation.  Every other journal
entry kind of the engine is collapsed into `other`, since the tracker only
pattern-matches for `StorageChanged`. -/
inductive JournalEntry where
  | StorageChanged (address : Addr) (key : Slot) (had_value : Val)
  | other (tag : Nat)
deriving DecidableEq

/-- The inspector state: read-set, write-set (slot to (pre, post)),
the optional block-scoped pre-state snapshot, and the transaction index. -/
structure StorageChangeInspector where
  storage_read : Addr → Slot → Bool
  storage_write : Addr → Slot → Option (Val × Val)
  pre_state : Addr → Slot → Option Val
  tx_index : Nat

namespace StorageChangeInspector

/-- `StorageChangeInspector::new` / `default`: all maps empty. -/
def new : StorageChangeInspector :=
  { storage_read := fun _ _ => false
    storage_write := fun _ _ => none
    pre_state := fun _ _ => none
    tx_index := 0 }

/-- `set_tx_index`. -/
def set_tx_index (st : StorageChangeInspector) (index : Nat) : StorageChangeInspector :=
  { st with tx_index := index }

/-- `set_pre_state`: replaces the pre-state snapshot. -/
def set_pre_state (st : StorageChangeInspector) (pre : Addr → Slot → Option Val) :
    StorageChangeInspector :=
  { st with pre_state := pre }

/-- `reset`: clears the read-set and the write-set; the pre-state snapshot
and the transaction index are untouched. -/
def reset (st : StorageChangeInspector) : StorageChangeInspector :=
  { st with storage_read := fun _ _ => false, storage_write := fun _ _ => none }

/-- `reads` accessor. -/
def reads (st : StorageChangeInspector) : Addr → Slot → Bool :=
  st.storage_read

/-- `writes` accessor. -/
def writes (st : StorageChangeInspector) : Addr → Slot → Option (Val × Val) :=
  st.storage_write

/-- `read_only_slots`, pointwise: slot `k` of address `a` is in the view
iff it was read and is absent from the keys of the write map for `a`. -/
def read_only_slots (st : StorageChangeInspector) (a : Addr) (k : Slot) : Bool :=
  st.storage_read a k && (st.storage_write a k).isNone

/-- `unchanged_writes`, pointwise: slot `k` is in the view iff the write
map has it and `pre.get(slot) == Some(new_val)` for the pre-state map of
`a` (an address absent from the snapshot behaves as an empty map, so the
comparison is with `none` and fails). -/
def unchanged_writes (st : StorageChangeInspector) (a : Addr) (k : Slot) : Bool :=
  match st.storage_write a k with
  | some nv => st.pre_state a k == some nv.2
  | none => false

/-- `untouched_pre_state_slots`, pointwise: slot `k` is in the view iff the
snapshot has it for `a` and the write map does not. -/
def untouched_pre_state_slots (st : StorageChangeInspector) (a : Addr) (k : Slot) : Bool :=
  (st.pre_state a k).isSome && (st.storage_write a k).isNone

/-- `get_bal_storage_reads`, pointwise: union of the three views. -/
def get_bal_storage_reads (st : StorageChangeInspector) (a : Addr) (k : Slot) : Bool :=
  read_only_slots st a k || unchanged_writes st a k || untouched_pre_state_slots st a k

/-- `get_bal_storage_writes`, pointwise: slot `k` maps to the stored
post-value iff `changed || zeroed`, where `old_val` is the snapshot's
value for the slot, defaulting to zero. -/
def get_bal_storage_writes (st : StorageChangeInspector) (a : Addr) (k : Slot) : Option Val :=
  match st.storage_write a k with
  | some nv =>
    let old_val := (st.pre_state a k).getD 0
    let changed := nv.2 ≠ old_val
    let zeroed := old_val ≠ 0 ∧ nv.2 = 0
    if changed ∨ zeroed then some nv.2 else none
  | none => none

end StorageChangeInspector

/-- `self.storage_read.entry(address).or_default().insert(key)`:
set insertion into the per-address read set. -/
def insertRead (r : Addr → Slot → Bool) (a : Addr) (k : Slot) : Addr → Slot → Bool :=
  fun a2 k2 => if a2 = a ∧ k2 = k then true else r a2 k2

/-- `self.storage_write.entry(address).or_default().insert(key, v)`:
unconditional insertion, replacing any existing entry. -/
def insertWrite (w : Addr → Slot → Option (Val × Val)) (a : Addr) (k : Slot)
    (v : Val × Val) : Addr → Slot → Option (Val × Val) :=
  fun a2 k2 => if a2 = a ∧ k2 = k then some v else w a2 k2

/-- `self.storage_write.entry(address).or_default().entry(key).or_insert(v)`:
insertion that keeps an existing entry. -/
def orInsertWrite (w : Addr → Slot → Option (Val × Val)) (a : Addr) (k : Slot)
    (v : Val × Val) : Addr → Slot → Option (Val × Val) :=
  fun a2 k2 =>
    if a2 = a ∧ k2 = k then
      match w a k with
      | some old => some old
      | none => some v
    else w a2 k2

/-- The per-instruction context the `step` hook observes: the opcode, the
current call's target address, peek-only stack access (`none` models a
peek error), the journal as an ordered list (`journal.journal()`, with
`.last()` its final element), and the committed state's
`present_value` lookup (`none` models the panicking map index miss in
`journal.evm_state()[addr].storage[slot_key]`). -/
structure StepContext where
  op : Nat
  target_address : Addr
  stack_peek : Nat → Option Val
  journal : List JournalEntry
  evm_present : Addr → Slot → Option Val

/-- `Inspector::step`.  Returns `none` exactly when the source would panic
(the SLOAD branch's state-map indexing on a matching last journal entry
whose (address, slot) the evm state lacks). -/
def step (ctx : StepContext) (st : StorageChangeInspector) :
    Option StorageChangeInspector :=
  let address := ctx.target_address
  if ctx.op = SLOAD then
    match ctx.stack_peek 0 with
    | some slot =>
      let key : Slot := slot
      let st1 := { st with storage_read := insertRead st.storage_read address key }
      match ctx.journal.getLast? with
      | some (JournalEntry.StorageChanged addr slot_key had_value) =>
        if addr = address ∧ slot_key = key then
          match ctx.evm_present addr slot_key with
          | some post =>
            some { st1 with
                   storage_write := orInsertWrite st1.storage_write address key
                     (had_value, post) }
          | none => none
        else some st1
      | _ => some st1
    | none => some st
  else if ctx.op = SSTORE then
    match ctx.stack_peek 0, ctx.stack_peek 1 with
    | some val, some slot =>
      let key : Slot := slot
      let value : Val := val
      match ctx.journal.getLast? with
      | some (JournalEntry.StorageChanged addr slot_key had_value) =>
        if addr = address ∧ slot_key = key then
          some { st with
                 storage_write := insertWrite st.storage_write address key
                   (had_value, value) }
        else some st
      | _ => some st
    | _, _ => some st
  else some st

/-! ### Helper lemmas about the map operations -/

theorem insertRead_idem (r : Addr → Slot → Bool) (a : Addr) (k : Slot) :
    insertRead (insertRead r a k) a k = insertRead r a k := by
  funext a2 k2
  by_cases h : a2 = a ∧ k2 = k <;> simp [insertRead, h]

theorem orInsertWrite_existing (w : Addr → Slot → Option (Val × Val)) (a : Addr)
    (k : Slot) (v pv : Val × Val) (h : w a k = some pv) :
    orInsertWrite w a k v a k = some pv := by
  simp [orInsertWrite, h]

theorem insertWrite_self (w : Addr → Slot → Option (Val × Val)) (a : Addr)
    (k : Slot) (v : Val × Val) : insertWrite w a k v a k = some v := by
  simp [insertWrite]

/-! ### Claim C8 -/

/-- Claim C8 (reset isolation): for every inspector state, after `reset`
the `reads` accessor and the `writes` accessor both return empty maps,
while a previously supplied pre-state snapshot is unchanged by the
reset. -/
theorem c8_reset_isolation (st : StorageChangeInspector)
    (pre : Addr → Slot → Option Val) :
    StorageChangeInspector.reads ((st.set_pre_state pre).reset) = (fun _ _ => false)
    ∧ StorageChangeInspector.writes ((st.set_pre_state pre).reset) = (fun _ _ => none)
    ∧ ((st.set_pre_state pre).reset).pre_state = pre :=
  ⟨rfl, rfl, rfl⟩

/-! ### Claim C9 -/

/-- How a single `step` call affects the read-set: an SLOAD with a
successful peek inserts the peeked key for the target address; every other
invocation leaves the read-set untouched. -/
theorem step_read_cases (ctx : StepContext) (st st1 : StorageChangeInspector)
    (h : step ctx st = some st1) :
    (ctx.op = SLOAD ∧ ∃ k, ctx.stack_peek 0 = some k ∧
        st1.storage_read = insertRead st.storage_read ctx.target_address k)
    ∨ (¬(ctx.op = SLOAD ∧ (ctx.stack_peek 0).isSome = true)
        ∧ st1.storage_read = st.storage_read) := by
  by_cases hop : ctx.op = SLOAD
  · rcases hpk : ctx.stack_peek 0 with _ | k
    · right
      refine ⟨fun hcontr => by simp at hcontr, ?_⟩
      simp only [step, hop, if_true, hpk] at h
      cases h; rfl
    · left
      refine ⟨hop, k, rfl, ?_⟩
      rcases hl : ctx.journal.getLast? with _ | e
      · simp only [step, hop, if_true, hpk, hl] at h
        cases h; rfl
      · cases e with
        | StorageChanged a2 k2 hv =>
          by_cases hc : a2 = ctx.target_address ∧ k2 = k
          · rcases hp : ctx.evm_present a2 k2 with _ | post
            · simp only [step, hop, if_true, hpk, hl, hp] at h
              rw [if_pos hc] at h
              cases h
            · simp only [step, hop, if_true, hpk, hl, hp] at h
              rw [if_pos hc] at h
              cases h; rfl
          · simp only [step, hop, if_true, hpk, hl] at h
            rw [if_neg hc] at h
            cases h; rfl
        | other t =>
          simp only [step, hop, if_true, hpk, hl] at h
          cases h; rfl
  · right
    refine ⟨fun hcontr => hop hcontr.1, ?_⟩
    by_cases hop2 : ctx.op = SSTORE
    · rcases hpk0 : ctx.stack_peek 0 with _ | v
      · simp only [step, hop, if_false, hop2, if_true, hpk0] at h
        cases h; rfl
      · rcases hpk1 : ctx.stack_peek 1 with _ | k
        · simp only [step, hop, if_false, hop2, if_true, hpk0, hpk1] at h
          cases h; rfl
        · rcases hl : ctx.journal.getLast? with _ | e
          · simp only [step, hop, if_false, hop2, if_true, hpk0, hpk1, hl] at h
            cases h; rfl
          · cases e with
            | StorageChanged a2 k2 hv =>
              by_cases hc : a2 = ctx.target_address ∧ k2 = k
              · simp only [step, hop, if_false, hop2, if_true, hpk0, hpk1, hl] at h
                rw [if_pos hc] at h
                cases h; rfl
              · simp only [step, hop, if_false, hop2, if_true, hpk0, hpk1, hl] at h
                rw [if_neg hc] at h
                cases h; rfl
            | other t =>
              simp only [step, hop, if_false, hop2, if_true, hpk0, hpk1, hl] at h
              cases h; rfl
    · simp only [step, hop, if_false, hop2] at h
      cases h; rfl

/-- Claim C9 (idempotent reads): observing the same instruction twice (the
same step context) leaves the read-set after the second observation exactly
as it was after the first -- inserting an already-present slot key changes
nothing observable through `reads`. -/
theorem c9_idempotent_reads (ctx : StepContext) (st st1 st2 : StorageChangeInspector)
    (h1 : step ctx st = some st1) (h2 : step ctx st1 = some st2) :
    st2.storage_read = st1.storage_read := by
  rcases step_read_cases ctx st st1 h1 with ⟨hop, k, hpk, hr1⟩ | ⟨hn, hr1⟩
  · rcases step_read_cases ctx st1 st2 h2 with ⟨_, k2, hpk2, hr2⟩ | ⟨hn2, hr2⟩
    · rw [hpk] at hpk2
      cases hpk2
      rw [hr2, hr1, insertRead_idem]
    · exact hr2
  · rcases step_read_cases ctx st1 st2 h2 with ⟨hop2, k2, hpk2, hr2⟩ | ⟨hn2, hr2⟩
    · exact absurd ⟨hop2, by rw [hpk2]; rfl⟩ hn
    · exact hr2

/-- A concrete SLOAD observation context for the C9 witness: target address
1, peeked slot key 0, empty journal. -/
def c9Ctx : StepContext :=
  { op := 0x54
    target_address := 1
    stack_peek := fun i => if i = 0 then some 0 else none
    journal := []
    evm_present := fun _ _ => none }

/-- State after the first C9 observation. -/
def c9St1 : StorageChangeInspector :=
  { StorageChangeInspector.new with
    storage_read := insertRead StorageChangeInspector.new.storage_read 1 0 }

/-- State after the second C9 observation. -/
def c9St2 : StorageChangeInspector :=
  { c9St1 with storage_read := insertRead c9St1.storage_read 1 0 }

theorem c9_idempotent_reads_witness :
    step c9Ctx StorageChangeInspector.new = some c9St1
    ∧ step c9Ctx c9St1 = some c9St2
    ∧ c9St2.storage_read = c9St1.storage_read :=
  ⟨rfl, rfl, c9_idempotent_reads c9Ctx StorageChangeInspector.new c9St1 c9St2 rfl rfl⟩

/-! ### Claim C10 -/

/-- Claim C10 (load-path frame property): on the storage-load path, journal
seeding never overwrites an existing write entry -- whenever the write-set
already holds an entry for (target address, peeked slot), an observed SLOAD
that completes leaves both the entry's pre-value and its post-value
unchanged, because the seed is inserted with `or_insert`.  (The store path,
by contrast, replaces the whole entry; see the C1 and C3 theorems.) -/
theorem c10_sload_preserves_entry (ctx : StepContext)
    (st st1 : StorageChangeInspector) (k : Slot) (pv : Val × Val)
    (hop : ctx.op = SLOAD) (hpk : ctx.stack_peek 0 = some k)
    (hentry : st.storage_write ctx.target_address k = some pv)
    (hstep : step ctx st = some st1) :
    st1.storage_write ctx.target_address k = some pv := by
  rcases hl : ctx.journal.getLast? with _ | e
  · simp only [step, hop, if_true, hpk, hl] at hstep
    cases hstep; exact hentry
  · cases e with
    | StorageChanged a2 k2 hv =>
      by_cases hc : a2 = ctx.target_address ∧ k2 = k
      · rcases hp : ctx.evm_present a2 k2 with _ | post
        · simp only [step, hop, if_true, hpk, hl, hp] at hstep
          rw [if_pos hc] at hstep
          cases hstep
        · simp only [step, hop, if_true, hpk, hl, hp] at hstep
          rw [if_pos hc] at hstep
          cases hstep
          exact orInsertWrite_existing st.storage_write ctx.target_address k
            (hv, post) pv hentry
      · simp only [step, hop, if_true, hpk, hl] at hstep
        rw [if_neg hc] at hstep
        cases hstep; exact hentry
    | other t =>
      simp only [step, hop, if_true, hpk, hl] at hstep
      cases hstep; exact hentry

/-- A concrete SLOAD context for the C10 witness: target address 1, peeked
slot key 0, journal whose last entry is not a storage change. -/
def c10Ctx : StepContext :=
  { op := 0x54
    target_address := 1
    stack_peek := fun i => if i = 0 then some 0 else none
    journal := [JournalEntry.other 3]
    evm_present := fun _ _ => none }

/-- A C10 witness state holding the entry (7, 9) for address 1, slot 0. -/
def c10St : StorageChangeInspector :=
  { StorageChangeInspector.new with
    storage_write := insertWrite StorageChangeInspector.new.storage_write 1 0 (7, 9) }

/-- The C10 witness state after the load observation. -/
def c10St1 : StorageChangeInspector :=
  { c10St with storage_read := insertRead c10St.storage_read 1 0 }

theorem c10_sload_preserves_entry_witness :
    c10St.storage_write 1 0 = some (7, 9)
    ∧ step c10Ctx c10St = some c10St1
    ∧ c10St1.storage_write 1 0 = some (7, 9) :=
  ⟨rfl, rfl, c10_sload_preserves_entry c10Ctx c10St c10St1 0 (7, 9) rfl rfl rfl rfl⟩

/-! ### Claim C5 -/

/-- The `zeroed` disjunct of `get_bal_storage_writes` is subsumed by the
`changed` inequality. -/
theorem changed_or_zeroed_iff (old q : Val) :
    (q ≠ old ∨ (old ≠ 0 ∧ q = 0)) ↔ q ≠ old := by
  constructor
  · rintro (h | ⟨h1, h2⟩)
    · exact h
    · rw [h2]; exact fun he => h1 he.symm
  · exact Or.inl

/-- A recorder state whose write entry for (1, 0) is (pre 0, post 42)
while the pre-state snapshot holds 42 for that slot. -/
def c5St : StorageChangeInspector :=
  { storage_read := fun _ _ => false
    storage_write := fun a k => if a = 1 ∧ k = 0 then some (0, 42) else none
    pre_state := fun a k => if a = 1 ∧ k = 0 then some 42 else none
    tx_index := 0 }

/-- Claim C5 counterexample: the write entry for (1, 0) has post-value 42
differing from its recorded pre-value 0, so the claim puts the slot in BAL
writes; the code compares the post-value against the pre-state snapshot
(42 = 42) and excludes it. -/
theorem c5_counterexample :
    c5St.storage_write 1 0 = some (0, 42)
    ∧ (0 : Val) ≠ 42
    ∧ StorageChangeInspector.get_bal_storage_writes c5St 1 0 = none :=
  ⟨rfl, by decide, rfl⟩

/-- Claim C5 amended: BAL writes contains, per address, exactly those
write-set entries whose post-value differs from the pre-state snapshot's
value for the slot (zero when the snapshot has no entry); the entry's own
recorded pre-value is ignored, the view maps the slot to the post-value
only, and a zero-clearing store is covered by this inequality alone (the
`zeroed` disjunct adds nothing). -/
theorem c5_bal_writes_pre_state_inequality (st : StorageChangeInspector)
    (a : Addr) (k : Slot) (v : Val) :
    StorageChangeInspector.get_bal_storage_writes st a k = some v ↔
      (∃ p, st.storage_write a k = some (p, v))
        ∧ v ≠ (st.pre_state a k).getD 0 := by
  rcases hw : st.storage_write a k with _ | ⟨p, q⟩
  · simp [StorageChangeInspector.get_bal_storage_writes, hw]
  · simp only [StorageChangeInspector.get_bal_storage_writes, hw]
    by_cases hq : q = (st.pre_state a k).getD 0
    · rw [if_neg]
      · constructor
        · intro h; cases h
        · rintro ⟨⟨p2, hp2⟩, hne⟩
          have h4 : q = v := congrArg Prod.snd (Option.some.inj hp2)
          exact absurd (by rw [← h4]; exact hq) hne
      · rintro (hcase | ⟨h1, h2⟩)
        · exact hcase hq
        · exact h1 (by rw [← hq]; exact h2)
    · rw [if_pos (Or.inl hq)]
      constructor
      · intro h
        cases h
        exact ⟨⟨p, rfl⟩, hq⟩
      · rintro ⟨⟨p2, hp2⟩, hne⟩
        have h4 : q = v := congrArg Prod.snd (Option.some.inj hp2)
        rw [h4]

/-! ### Claim C4 -/

open StorageChangeInspector in
/-- BAL-reads membership, by cases on the raw recorder state. -/
theorem bal_reads_true_iff (st : StorageChangeInspector) (a : Addr) (k : Slot) :
    get_bal_storage_reads st a k = true ↔
      ((st.storage_read a k = true ∨ (st.pre_state a k).isSome = true)
          ∧ st.storage_write a k = none)
      ∨ (∃ p q, st.storage_write a k = some (p, q) ∧ st.pre_state a k = some q) := by
  rcases hw : st.storage_write a k with _ | ⟨p, q⟩
  · simp [get_bal_storage_reads, read_only_slots, unchanged_writes,
      untouched_pre_state_slots, hw]
  · simp only [get_bal_storage_reads, read_only_slots, unchanged_writes,
      untouched_pre_state_slots, hw, Option.isNone_some, Bool.and_false,
      Bool.false_or, Bool.or_false]
    constructor
    · intro h
      right
      refine ⟨p, q, rfl, ?_⟩
      exact eq_of_beq h
    · rintro (⟨_, hcontr⟩ | ⟨p2, q2, hw2, hp2⟩)
      · cases hcontr
      · have h3 : q2 = q := congrArg Prod.snd (Option.some.inj hw2.symm)
        rw [hp2, h3]
        exact beq_self_eq_true (some q)

open StorageChangeInspector in
/-- BAL-writes absence, by cases on the raw recorder state: the view skips
a slot exactly when it was not written or its post-value equals the
snapshot value (zero on a snapshot miss). -/
theorem bal_writes_none_iff (st : StorageChangeInspector) (a : Addr) (k : Slot) :
    get_bal_storage_writes st a k = none ↔
      st.storage_write a k = none
      ∨ ∃ p, st.storage_write a k = some (p, (st.pre_state a k).getD 0) := by
  rcases hw : st.storage_write a k with _ | ⟨p, q⟩
  · simp [get_bal_storage_writes, hw]
  · simp only [get_bal_storage_writes, hw]
    by_cases hq : q = (st.pre_state a k).getD 0
    · rw [if_neg]
      · constructor
        · intro _
          right
          exact ⟨p, by rw [hq]⟩
        · intro _
          rfl
      · rintro (h1 | ⟨h1, h2⟩)
        · exact h1 hq
        · exact h1 (by rw [← hq]; exact h2)
    · rw [if_pos (Or.inl hq)]
      constructor
      · intro hcontr
        cases hcontr
      · rintro (hcontr | ⟨p2, hp2⟩)
        · cases hcontr
        · have h4 : q = (st.pre_state a k).getD 0 :=
            congrArg Prod.snd (Option.some.inj hp2)
          exact absurd h4 hq

/-- A reachable counterexample context for C4: an SLOAD of slot 0 at
address 1 whose matching last journal entry seeds the write entry (0, 0). -/
def c4Ctx : StepContext :=
  { op := 0x54
    target_address := 1
    stack_peek := fun i => if i = 0 then some 0 else none
    journal := [JournalEntry.StorageChanged 1 0 0]
    evm_present := fun a k => if a = 1 ∧ k = 0 then some 0 else none }

/-- Claim C4 counterexample: after the single observation `c4Ctx` from the
empty state, slot 0 of address 1 is recorded as read (and as written, with
entry (0, 0)), yet it appears in neither `get_bal_storage_reads` nor
`get_bal_storage_writes`: the partition claim fails on a written slot with
post-value zero that the pre-state snapshot lacks. -/
theorem c4_counterexample :
    (step c4Ctx StorageChangeInspector.new).map
        (fun s => (s.storage_read 1 0, s.storage_write 1 0,
          StorageChangeInspector.get_bal_storage_reads s 1 0,
          StorageChangeInspector.get_bal_storage_writes s 1 0))
      = some (true, some (0, 0), false, none) := by
  rfl

open StorageChangeInspector in
/-- Claim C4 amended: for every slot recorded as read or as written, the
slot is never in both classified views, and it is in neither view exactly
when it was written with post-value zero while the pre-state snapshot has
no entry for it; in every other case it is in exactly one view. -/
theorem c4_partition_except_default_zero (st : StorageChangeInspector)
    (a : Addr) (k : Slot)
    (h : st.storage_read a k = true ∨ (st.storage_write a k).isSome = true) :
    ¬(get_bal_storage_reads st a k = true
        ∧ (get_bal_storage_writes st a k).isSome = true)
    ∧ (get_bal_storage_reads st a k = false ∧ get_bal_storage_writes st a k = none
        ↔ (st.storage_write a k).map Prod.snd = some 0
          ∧ st.pre_state a k = none) := by
  constructor
  · rintro ⟨hr, hwi⟩
    rcases (bal_reads_true_iff st a k).mp hr with ⟨_, hwn⟩ | ⟨p, q, hws, hpq⟩
    · rw [(bal_writes_none_iff st a k).mpr (Or.inl hwn)] at hwi
      simp at hwi
    · have hnone := (bal_writes_none_iff st a k).mpr
        (Or.inr ⟨p, by rw [hpq]; simpa using hws⟩)
      rw [hnone] at hwi
      simp at hwi
  · constructor
    · rintro ⟨hrf, hwn⟩
      rcases (bal_writes_none_iff st a k).mp hwn with hwnone | ⟨p, hpsome⟩
      · have hr : st.storage_read a k = true := by
          rcases h with h | h
          · exact h
          · rw [hwnone] at h; simp at h
        have ht : get_bal_storage_reads st a k = true :=
          (bal_reads_true_iff st a k).mpr (Or.inl ⟨Or.inl hr, hwnone⟩)
        rw [ht] at hrf
        cases hrf
      · rcases hp : st.pre_state a k with _ | old
        · refine ⟨?_, rfl⟩
          rw [hpsome, hp]
          simp
        · exfalso
          have ht : get_bal_storage_reads st a k = true :=
            (bal_reads_true_iff st a k).mpr
              (Or.inr ⟨p, (st.pre_state a k).getD 0, hpsome, by rw [hp]; simp⟩)
          rw [ht] at hrf
          cases hrf
    · rintro ⟨hm, hpn⟩
      rcases hw2 : st.storage_write a k with _ | ⟨p, q⟩
      · rw [hw2] at hm; simp at hm
      · have hq : q = 0 := by rw [hw2] at hm; simpa using hm
        subst hq
        constructor
        · cases hgr : get_bal_storage_reads st a k with
          | false => rfl
          | true =>
            exfalso
            rcases (bal_reads_true_iff st a k).mp hgr with
                ⟨_, hcontra⟩ | ⟨p2, q2, hw3, hp3⟩
            · rw [hw2] at hcontra; cases hcontra
            · rw [hpn] at hp3; cases hp3
        · exact (bal_writes_none_iff st a k).mpr (Or.inr ⟨p, by rw [hw2, hpn]; rfl⟩)

/-- A C4 witness state: slot 0 of address 1 was read only. -/
def c4WSt : StorageChangeInspector :=
  { storage_read := fun a k => if a = 1 ∧ k = 0 then true else false
    storage_write := fun _ _ => none
    pre_state := fun _ _ => none
    tx_index := 0 }

theorem c4_partition_witness :
    (c4WSt.storage_read 1 0 = true ∨ (c4WSt.storage_write 1 0).isSome = true)
    ∧ (¬(StorageChangeInspector.get_bal_storage_reads c4WSt 1 0 = true
          ∧ (StorageChangeInspector.get_bal_storage_writes c4WSt 1 0).isSome = true)
        ∧ (StorageChangeInspector.get_bal_storage_reads c4WSt 1 0 = false
            ∧ StorageChangeInspector.get_bal_storage_writes c4WSt 1 0 = none
          ↔ (c4WSt.storage_write 1 0).map Prod.snd = some 0
            ∧ c4WSt.pre_state 1 0 = none)) :=
  ⟨Or.inl rfl, c4_partition_except_default_zero c4WSt 1 0 (Or.inl rfl)⟩

/-! ### Claim C6 -/

/-- A recorder state where slot 0 of address 1 was written back with its
pre-existing value: the slot is absent from the pre-state snapshot, so its
pre-existing value is the default zero, and the write entry is (0, 0). -/
def c6St : StorageChangeInspector :=
  { storage_read := fun _ _ => false
    storage_write := fun a k => if a = 1 ∧ k = 0 then some (0, 0) else none
    pre_state := fun _ _ => none
    tx_index := 0 }

/-- Claim C6 counterexample: slot 0 of address 1 was written with its
pre-existing value (zero, the default of a slot the snapshot lacks); the
claim requires the slot to appear in `get_bal_storage_reads`, but the code
leaves it out of both views, because `unchanged_writes` compares against
`pre.get(slot)` which is `None` for a snapshot miss, never equal to
`Some(0)`. -/
theorem c6_counterexample :
    c6St.storage_write 1 0 = some (0, 0)
    ∧ c6St.pre_state 1 0 = none
    ∧ StorageChangeInspector.get_bal_storage_writes c6St 1 0 = none
    ∧ StorageChangeInspector.get_bal_storage_reads c6St 1 0 = false :=
  ⟨rfl, rfl, rfl, rfl⟩

open StorageChangeInspector in
/-- Claim C6 amended: if the pre-state snapshot holds a value for the slot
and the slot was written with exactly that value as post-value, then the
slot is absent from `get_bal_storage_writes` and present in
`get_bal_storage_reads`; when the snapshot has no entry for the slot, a
write of the default pre-existing value zero leaves the slot absent from
both views. -/
theorem c6_noop_exclusion_with_snapshot (st : StorageChangeInspector)
    (a : Addr) (k : Slot) (p old : Val)
    (hpre : st.pre_state a k = some old)
    (hw : st.storage_write a k = some (p, old)) :
    get_bal_storage_writes st a k = none
    ∧ get_bal_storage_reads st a k = true :=
  ⟨(bal_writes_none_iff st a k).mpr (Or.inr ⟨p, by rw [hw, hpre]; rfl⟩),
   (bal_reads_true_iff st a k).mpr (Or.inr ⟨p, old, hw, hpre⟩)⟩

/-- A C6 witness state: snapshot value 5 for slot 0 of address 1, write
entry (3, 5). -/
def c6WSt : StorageChangeInspector :=
  { storage_read := fun _ _ => false
    storage_write := fun a k => if a = 1 ∧ k = 0 then some (3, 5) else none
    pre_state := fun a k => if a = 1 ∧ k = 0 then some 5 else none
    tx_index := 0 }

theorem c6_noop_exclusion_witness :
    c6WSt.pre_state 1 0 = some 5
    ∧ c6WSt.storage_write 1 0 = some (3, 5)
    ∧ StorageChangeInspector.get_bal_storage_writes c6WSt 1 0 = none
    ∧ StorageChangeInspector.get_bal_storage_reads c6WSt 1 0 = true :=
  ⟨rfl, rfl, (c6_noop_exclusion_with_snapshot c6WSt 1 0 3 5 rfl rfl).1,
   (c6_noop_exclusion_with_snapshot c6WSt 1 0 3 5 rfl rfl).2⟩

/-! ### Claim C7 -/

/-- A step context on which the source panics: the last journal entry is a
matching storage change for (1, 0), but the evm state map has no entry for
that account and slot, so `journal.evm_state()[addr].storage[slot_key]`
aborts. -/
def c7Ctx : StepContext :=
  { op := 0x54
    target_address := 1
    stack_peek := fun i => if i = 0 then some 0 else none
    journal := [JournalEntry.StorageChanged 1 0 7]
    evm_present := fun _ _ => none }

/-- Claim C7 counterexample: the step hook is not total over arbitrary
journal and state contents -- on `c7Ctx` the SLOAD seeding path aborts
(modelled as `none`) instead of completing. -/
theorem c7_counterexample : step c7Ctx StorageChangeInspector.new = none := rfl

/-- Claim C7 amended: provided the evm state has an entry for the
(address, slot) of a matching last journal storage-change record (the
engine's journal-consistency invariant), the step hook always completes;
on a peek failure, and on every opcode other than SLOAD and SSTORE, it
returns the recorder state unchanged. -/
theorem c7_step_total_and_skips (ctx : StepContext) (st : StorageChangeInspector)
    (hconsist : ∀ a k h,
      ctx.journal.getLast? = some (JournalEntry.StorageChanged a k h) →
      (ctx.evm_present a k).isSome = true) :
    (step ctx st).isSome = true
    ∧ (ctx.op = SLOAD → ctx.stack_peek 0 = none → step ctx st = some st)
    ∧ (ctx.op = SSTORE →
        ctx.stack_peek 0 = none ∨ ctx.stack_peek 1 = none →
        step ctx st = some st)
    ∧ (¬ctx.op = SLOAD → ¬ctx.op = SSTORE → step ctx st = some st) := by
  by_cases hop : ctx.op = SLOAD
  · refine ⟨?_, ?_, ?_, ?_⟩
    · rcases hpk : ctx.stack_peek 0 with _ | k
      · simp [step, hop, hpk]
      · rcases hl : ctx.journal.getLast? with _ | e
        · simp [step, hop, hpk, hl]
        · cases e with
          | StorageChanged a2 k2 hv =>
            by_cases hc : a2 = ctx.target_address ∧ k2 = k
            · rcases hp : ctx.evm_present a2 k2 with _ | post
              · have hs := hconsist a2 k2 hv hl
                rw [hp] at hs
                cases hs
              · simp only [step, hop, if_true, hpk, hl, hp]
                rw [if_pos hc]
                rfl
            · simp only [step, hop, if_true, hpk, hl]
              rw [if_neg hc]
              rfl
          | other t => simp [step, hop, hpk, hl]
    · intro _ hpk0
      simp [step, hop, hpk0]
    · intro hop2 _
      exact absurd (hop.symm.trans hop2) (by decide)
    · intro hnop _
      exact absurd hop hnop
  · by_cases hop2 : ctx.op = SSTORE
    · refine ⟨?_, ?_, ?_, ?_⟩
      · rcases hpk0 : ctx.stack_peek 0 with _ | v
        · simp [step, SLOAD, SSTORE, hop, hop2, hpk0]
        · rcases hpk1 : ctx.stack_peek 1 with _ | k
          · simp [step, SLOAD, SSTORE, hop, hop2, hpk0, hpk1]
          · rcases hl : ctx.journal.getLast? with _ | e
            · simp [step, SLOAD, SSTORE, hop, hop2, hpk0, hpk1, hl]
            · cases e with
              | StorageChanged a2 k2 hv =>
                by_cases hc : a2 = ctx.target_address ∧ k2 = k
                · simp only [step, SLOAD, SSTORE, Nat.reduceEqDiff, if_false,
                    hop2, if_true, hpk0, hpk1, hl]
                  rw [if_pos hc]
                  rfl
                · simp only [step, SLOAD, SSTORE, Nat.reduceEqDiff, if_false,
                    hop2, if_true, hpk0, hpk1, hl]
                  rw [if_neg hc]
                  rfl
              | other t => simp [step, SLOAD, SSTORE, hop, hop2, hpk0, hpk1, hl]
      · intro hSL _
        exact absurd hSL hop
      · intro _ hor
        rcases hor with h0 | h1
        · simp [step, SLOAD, SSTORE, hop, hop2, h0]
        · rcases hpk0 : ctx.stack_peek 0 with _ | v
          · simp [step, SLOAD, SSTORE, hop, hop2, hpk0]
          · simp [step, SLOAD, SSTORE, hop, hop2, hpk0, h1]
      · intro _ hn2
        exact absurd hop2 hn2
    · have hnoop : step ctx st = some st := by simp [step, hop, hop2]
      exact ⟨by rw [hnoop]; rfl, fun hSL => absurd hSL hop,
        fun hSS => absurd hSS hop2, fun _ _ => hnoop⟩

/-- A C7 witness context: an unrelated opcode with an empty journal. -/
def c7WCtx : StepContext :=
  { op := 0
    target_address := 1
    stack_peek := fun _ => none
    journal := []
    evm_present := fun _ _ => none }

theorem c7_step_total_witness :
    (step c7WCtx StorageChangeInspector.new).isSome = true
    ∧ (c7WCtx.op = SLOAD → c7WCtx.stack_peek 0 = none →
        step c7WCtx StorageChangeInspector.new = some StorageChangeInspector.new)
    ∧ (c7WCtx.op = SSTORE →
        c7WCtx.stack_peek 0 = none ∨ c7WCtx.stack_peek 1 = none →
        step c7WCtx StorageChangeInspector.new = some StorageChangeInspector.new)
    ∧ (¬c7WCtx.op = SLOAD → ¬c7WCtx.op = SSTORE →
        step c7WCtx StorageChangeInspector.new = some StorageChangeInspector.new) :=
  c7_step_total_and_skips c7WCtx StorageChangeInspector.new
    (fun _ _ _ hl => nomatch hl)

/-! ### Claim C3 -/

/-- An SSTORE observation of value 42 into slot 0 at address 1 with an
empty journal. -/
def c3Ctx : StepContext :=
  { op := 0x55
    target_address := 1
    stack_peek := fun i => if i = 0 then some 42 else if i = 1 then some 0 else none
    journal := []
    evm_present := fun _ _ => none }

/-- A recorder state whose pre-state snapshot holds 7 for (1, 0) and whose
write-set is empty. -/
def c3St : StorageChangeInspector :=
  { storage_read := fun _ _ => false
    storage_write := fun _ _ => none
    pre_state := fun a k => if a = 1 ∧ k = 0 then some 7 else none
    tx_index := 0 }

/-- Claim C3 counterexample: both stack peeks succeed and the Pre-State
Oracle holds 7 for the slot, so the claim requires a write entry (7, 42)
to be recorded; the code records nothing, because the journal's last entry
is not a matching storage change (the journal is empty). -/
theorem c3_counterexample :
    c3Ctx.stack_peek 0 = some 42
    ∧ c3Ctx.stack_peek 1 = some 0
    ∧ c3St.pre_state 1 0 = some 7
    ∧ (step c3Ctx c3St).map (fun s => s.storage_write 1 0) = some none :=
  ⟨rfl, rfl, rfl, rfl⟩

/-- Claim C3 amended: on an observed SSTORE whose two peeks succeed, a
write entry is recorded only when the most recent journal entry is a
storage-change record for exactly (current call target, peeked slot key);
the entry then recorded is (that record's had-value, stored value),
replacing any existing entry wholesale; in every other case (empty
journal, last entry of another kind, or last entry for a different
address or slot) the write-set is left unchanged, and neither any existing
write entry's pre-value nor the Pre-State Oracle is consulted. -/
theorem c3_sstore_records_iff_last_journal_matches (ctx : StepContext)
    (st : StorageChangeInspector) (v k : Val)
    (hop : ctx.op = SSTORE)
    (hpk0 : ctx.stack_peek 0 = some v) (hpk1 : ctx.stack_peek 1 = some k) :
    (∀ had, ctx.journal.getLast? =
        some (JournalEntry.StorageChanged ctx.target_address k had) →
      step ctx st = some { st with storage_write := insertWrite st.storage_write ctx.target_address k (had, v) })
    ∧ ((∀ had, ctx.journal.getLast? ≠
        some (JournalEntry.StorageChanged ctx.target_address k had)) →
      step ctx st = some st) := by
  constructor
  · intro had hl
    simp [step, SLOAD, SSTORE, hop, hpk0, hpk1, hl]
  · intro hnm
    rcases hl : ctx.journal.getLast? with _ | e
    · simp [step, SLOAD, SSTORE, hop, hpk0, hpk1, hl]
    · cases e with
      | StorageChanged a2 k2 hv =>
        have hc : ¬(a2 = ctx.target_address ∧ k2 = k) := by
          rintro ⟨rfl, rfl⟩
          exact hnm hv hl
        simp only [step, SLOAD, SSTORE, Nat.reduceEqDiff, hop, hpk0, hpk1, hl,
          if_false, if_true]
        rw [if_neg hc]
      | other t => simp [step, SLOAD, SSTORE, hop, hpk0, hpk1, hl]

/-- An SSTORE observation context for the C3 witness whose last journal
entry is a matching storage change with had-value 7. -/
def c3WCtx : StepContext :=
  { op := 0x55
    target_address := 1
    stack_peek := fun i => if i = 0 then some 42 else if i = 1 then some 0 else none
    journal := [JournalEntry.StorageChanged 1 0 7]
    evm_present := fun _ _ => none }

theorem c3_sstore_records_witness :
    (∀ had, c3WCtx.journal.getLast? =
        some (JournalEntry.StorageChanged 1 0 had) →
      step c3WCtx StorageChangeInspector.new = some { StorageChangeInspector.new with storage_write := insertWrite StorageChangeInspector.new.storage_write 1 0 (had, 42) })
    ∧ ((∀ had, c3WCtx.journal.getLast? ≠
        some (JournalEntry.StorageChanged 1 0 had)) →
      step c3WCtx StorageChangeInspector.new = some StorageChangeInspector.new) :=
  c3_sstore_records_iff_last_journal_matches c3WCtx StorageChangeInspector.new
    42 0 rfl rfl rfl

/-! ### Claim C2 -/

/-- An SLOAD observation of slot 0 at address 1 whose journal holds a
matching storage-change record followed by an unrelated one. -/
def c2Ctx : StepContext :=
  { op := 0x54
    target_address := 1
    stack_peek := fun i => if i = 0 then some 0 else none
    journal := [JournalEntry.StorageChanged 1 0 7, JournalEntry.StorageChanged 2 3 8]
    evm_present := fun a k => if a = 1 ∧ k = 0 then some 9 else none }

/-- Claim C2 counterexample: the journal contains a storage-change record
for the executing target and the peeked slot (had-value 7), the write-set
holds no entry for (1, 0), and the slot's value resolves to 9 -- yet after
the observed load no write entry is seeded, because one unrelated mutation
record was journaled after the matching one and the code inspects only the
journal's last entry instead of scanning backward. -/
theorem c2_counterexample :
    JournalEntry.StorageChanged 1 0 7 ∈ c2Ctx.journal
    ∧ StorageChangeInspector.new.storage_write 1 0 = none
    ∧ c2Ctx.evm_present 1 0 = some 9
    ∧ (step c2Ctx StorageChangeInspector.new).map (fun s => s.storage_write 1 0)
        = some none :=
  ⟨by decide, rfl, rfl, rfl⟩

/-- Claim C2 amended: on an observed storage-load, a write entry is seeded
only when the single most recent journal entry is itself a storage-change
record for exactly (current call target, peeked slot key); when it is, and
the write-set holds no entry for that pair, the seeded entry pairs the
record's had-value with the slot's current resolved value. -/
theorem c2_seed_only_from_last_entry (ctx : StepContext)
    (st : StorageChangeInspector) (k had post : Val)
    (hop : ctx.op = SLOAD) (hpk : ctx.stack_peek 0 = some k)
    (hl : ctx.journal.getLast? =
      some (JournalEntry.StorageChanged ctx.target_address k had))
    (hpresent : ctx.evm_present ctx.target_address k = some post)
    (hnone : st.storage_write ctx.target_address k = none) :
    step ctx st = some { st with storage_read := insertRead st.storage_read ctx.target_address k, storage_write := orInsertWrite st.storage_write ctx.target_address k (had, post) }
    ∧ orInsertWrite st.storage_write ctx.target_address k (had, post)
        ctx.target_address k = some (had, post) := by
  constructor
  · simp [step, SLOAD, SSTORE, hop, hpk, hl, hpresent]
  · simp [orInsertWrite, hnone]

/-- An SLOAD observation context for the C2 witness: the matching
storage-change record is the journal's last entry. -/
def c2WCtx : StepContext :=
  { op := 0x54
    target_address := 1
    stack_peek := fun i => if i = 0 then some 0 else none
    journal := [JournalEntry.StorageChanged 1 0 7]
    evm_present := fun a k => if a = 1 ∧ k = 0 then some 9 else none }

theorem c2_seed_witness :
    step c2WCtx StorageChangeInspector.new = some { StorageChangeInspector.new with storage_read := insertRead StorageChangeInspector.new.storage_read 1 0, storage_write := orInsertWrite StorageChangeInspector.new.storage_write 1 0 (7, 9) }
    ∧ orInsertWrite StorageChangeInspector.new.storage_write 1 0 (7, 9) 1 0
        = some (7, 9) :=
  c2_seed_only_from_last_entry c2WCtx StorageChangeInspector.new 0 7 9
    rfl rfl rfl rfl rfl

/-! ### Claim C1 -/

/-- First observed store of the C1 trace: value 5 into slot 0 at address 1,
before anything was journaled. -/
def c1Ctx1 : StepContext :=
  { op := 0x55
    target_address := 1
    stack_peek := fun i => if i = 0 then some 5 else if i = 1 then some 0 else none
    journal := []
    evm_present := fun _ _ => none }

/-- Second observed store of the C1 trace: value 9, after the first store
(slot previously 0) was journaled. -/
def c1Ctx2 : StepContext :=
  { op := 0x55
    target_address := 1
    stack_peek := fun i => if i = 0 then some 9 else if i = 1 then some 0 else none
    journal := [JournalEntry.StorageChanged 1 0 0]
    evm_present := fun _ _ => none }

/-- Third observed store of the C1 trace: value 12, after the second store
(slot previously 5) was journaled as well. -/
def c1Ctx3 : StepContext :=
  { op := 0x55
    target_address := 1
    stack_peek := fun i => if i = 0 then some 12 else if i = 1 then some 0 else none
    journal := [JournalEntry.StorageChanged 1 0 0, JournalEntry.StorageChanged 1 0 5]
    evm_present := fun _ _ => none }

/-- Claim C1 counterexample: along the observed store sequence 5, 9, 12 to
slot 0 of address 1 (initial value 0), the write entry after the second
store is (0, 9) -- the pre-value 0 captured at the entry's first
observation -- but after the third store the entry is (5, 12): the
recorded pre-value did not stay at its first-observation value 0, because
each recorded store replaces the whole entry with the journal's last
had-value. -/
theorem c1_counterexample :
    ((step c1Ctx1 StorageChangeInspector.new).bind (step c1Ctx2)).map
        (fun s => s.storage_write 1 0) = some (some (0, 9))
    ∧ (((step c1Ctx1 StorageChangeInspector.new).bind (step c1Ctx2)).bind
        (step c1Ctx3)).map (fun s => s.storage_write 1 0) = some (some (5, 12)) :=
  ⟨rfl, rfl⟩

/-- Claim C1 amended: a recorded store (one whose matching storage-change
record is the journal's last entry) replaces the whole write entry with
(that record's had-value, stored value); the pre-value captured at the
first observation of the (address, slot) is not preserved by subsequent
recorded stores, whatever entry (p0, q0) was present before. -/
theorem c1_recorded_store_overwrites_pre (ctx : StepContext)
    (st : StorageChangeInspector) (v k had p0 q0 : Val)
    (hop : ctx.op = SSTORE)
    (hpk0 : ctx.stack_peek 0 = some v) (hpk1 : ctx.stack_peek 1 = some k)
    (hl : ctx.journal.getLast? =
      some (JournalEntry.StorageChanged ctx.target_address k had))
    (hentry : st.storage_write ctx.target_address k = some (p0, q0)) :
    ∃ st1, step ctx st = some st1
      ∧ st1.storage_write ctx.target_address k = some (had, v) := by
  refine ⟨{ st with storage_write := insertWrite st.storage_write ctx.target_address k (had, v) }, ?_, ?_⟩
  · simp [step, SLOAD, SSTORE, hop, hpk0, hpk1, hl]
  · exact insertWrite_self st.storage_write ctx.target_address k (had, v)

/-- A C1 witness state holding the first-observation entry (0, 9) for
slot 0 of address 1. -/
def c1WSt : StorageChangeInspector :=
  { storage_read := fun _ _ => false
    storage_write := fun a k => if a = 1 ∧ k = 0 then some (0, 9) else none
    pre_state := fun _ _ => none
    tx_index := 0 }

theorem c1_overwrites_pre_witness :
    c1WSt.storage_write 1 0 = some (0, 9)
    ∧ ∃ st1, step c1Ctx3 c1WSt = some st1
        ∧ st1.storage_write 1 0 = some (5, 12) :=
  ⟨rfl, c1_recorded_store_overwrites_pre c1Ctx3 c1WSt 12 0 5 0 9
    rfl rfl rfl rfl rfl⟩
